import Mathlib

/-!
Verification development for the react-native alert system
(`AlertProvider.tsx`, `alert.ts`, `alert-initializer.tsx`).

The controller state and its operations are translated from
`AlertProvider.tsx`; the global bridge from `alert.ts`; the registration
component from `alert-initializer.tsx`.  Time is discrete (milliseconds);
the event loop is modelled by an explicit pending-event set (`setTimeout`
auto-hide callbacks and the out-animation completion callback) and a
deterministic `advance` function that fires due events in time order.
-/

/-- The alert classifications, `AlertType` in `AlertProvider.tsx`:
`success | error | info | warning`. -/
inductive AlertType where
  | success
  | error
  | info
  | warning
  deriving DecidableEq

/-- Button kinds from `AlertProvider.tsx`: `default | cancel | destructive`. -/
inductive BtnKind where
  | dflt
  | cancel
  | destructive
  deriving DecidableEq

/-- A caller-supplied zero-argument callback, kept opaque: either the
no-op literal written in the source as a fresh empty closure, or an opaque
caller callback labelled by a value of `α`. -/
inductive Act (α : Type) where
  | noop
  | cb (a : α)
  deriving DecidableEq

/-- `AlertButton` from `AlertProvider.tsx`: display text, `onPress` callback,
and an optional kind (the source field `type` is optional). -/
structure AlertButton (α : Type) where
  text : String
  onPress : Act α
  type : Option BtnKind
  deriving DecidableEq

/-- The provider alert state, the `useState` record of `AlertProvider.tsx`:
`{visible, message, type, buttons, autoHide}`.  `buttons = none` models the
source value `undefined` (a plain alert carries no button set). -/
structure AlertState (α : Type) where
  visible : Bool
  message : String
  type : AlertType
  buttons : Option (List (AlertButton α))
  autoHide : Bool
  deriving DecidableEq

/-- The controller together with its pending asynchronous work.
`now` is the current clock (ms); `timers` holds the absolute fire times of
the one-shot `setTimeout(hideAlert, duration)` callbacks scheduled by
`showAlert` (the source never cancels them, so several can be pending);
`outAnim` holds the absolute completion time of the 300 ms out-animation
started by `hideAlert`, whose completion callback writes `visible := false`.
All tweens share one animated value, so starting a new tween supersedes the
pending one: each `show*` call therefore clears `outAnim`. -/
structure Sys (α : Type) where
  st : AlertState α
  now : Nat
  timers : List Nat
  outAnim : Option Nat
  deriving DecidableEq

/-- The initial provider state from `AlertProvider.tsx`:
`{visible:false, message:'', type:'info', buttons:undefined, autoHide:true}`,
no pending timer and no pending animation. -/
def initSys (α : Type) : Sys α :=
  { st := { visible := false, message := "", type := AlertType.info,
            buttons := none, autoHide := true },
    now := 0, timers := [], outAnim := none }

/-- `showAlert` from `AlertProvider.tsx`: unconditionally overwrite the state
with `{visible:true, message, type, buttons:undefined, autoHide:true}`, start
the in-animation (superseding any pending out-animation callback) and
schedule a one-shot auto-hide `setTimeout` after `duration` ms.  Previously
scheduled timers are left untouched. -/
def showAlert (s : Sys α) (message : String) (type : AlertType)
    (duration : Nat) : Sys α :=
  { s with
    st := { visible := true, message := message, type := type,
            buttons := none, autoHide := true },
    outAnim := none,
    timers := s.timers ++ [s.now + duration] }

/-- Call-site wrapper for the optional parameters of `showAlert`:
an omitted argument (`none`) takes the declared default, `type = 'info'`
and `duration = 3000`. -/
def showAlertOpt (s : Sys α) (message : String) (type : Option AlertType)
    (duration : Option Nat) : Sys α :=
  showAlert s message (type.getD AlertType.info) (duration.getD 3000)

/-- `showConfirmAlert` from `AlertProvider.tsx`: overwrite the state with
`{visible:true, message, type, buttons, autoHide:false}` and start the
in-animation.  No timer is scheduled. -/
def showConfirmAlert (s : Sys α) (message : String)
    (buttons : List (AlertButton α)) (type : AlertType) : Sys α :=
  { s with
    st := { visible := true, message := message, type := type,
            buttons := some buttons, autoHide := false },
    outAnim := none }

/-- `showDeleteConfirmation` from `AlertProvider.tsx`: build the fixed
two-button list — `Cancel` (kind `cancel`, action `onCancel || (() => {})`)
then `Delete` (kind `destructive`, action `onConfirm`) — and delegate to
`showConfirmAlert` with the fixed type `'info'`. -/
def showDeleteConfirmation (s : Sys α) (message : String) (onConfirm : Act α)
    (onCancel : Option (Act α)) : Sys α :=
  showConfirmAlert s message
    [ { text := "Cancel", onPress := onCancel.getD Act.noop,
        type := some BtnKind.cancel },
      { text := "Delete", onPress := onConfirm,
        type := some BtnKind.destructive } ]
    AlertType.info

/-- `hideAlert` from `AlertProvider.tsx`: start the 300 ms out-animation on
the shared animated value; the alert state itself is only changed later, by
the completion callback (`fireOutAnim`).  Pending timers are not touched. -/
def hideAlert (s : Sys α) : Sys α :=
  { s with outAnim := some (s.now + 300) }

/-- A pending auto-hide `setTimeout` callback fires at its scheduled time
`t`: it leaves the pending set and invokes `hideAlert` unconditionally.
A time that is not a pending timer fires nothing. -/
def fireTimer (s : Sys α) (t : Nat) : Sys α :=
  if t ∈ s.timers then
    hideAlert { s with now := t, timers := s.timers.erase t }
  else s

/-- The pending out-animation completes: its completion callback runs
`setAlertState(prev => ({ ...prev, visible: false }))`, writing only the
`visible` field. -/
def fireOutAnim (s : Sys α) : Sys α :=
  match s.outAnim with
  | some t =>
    { s with
      now := t
      outAnim := none
      st := { s.st with visible := false } }
  | none => s

/-- Least element of a list of times. -/
def listMin : List Nat → Option Nat
  | [] => none
  | t :: ts =>
    match listMin ts with
    | none => some t
    | some u => some (min t u)

/-- Earliest pending event (auto-hide timer or out-animation completion)
due at or before `target`. -/
def earliestDue (s : Sys α) (target : Nat) : Option Nat :=
  listMin ((s.timers.filter (fun t => decide (t ≤ target))) ++
    (match s.outAnim with
     | some a => if a ≤ target then [a] else []
     | none => []))

/-- One event-loop step at time `t`: a due timer fires first; otherwise the
pending out-animation completes. -/
def stepAt (s : Sys α) (t : Nat) : Sys α :=
  if t ∈ s.timers then fireTimer s t else fireOutAnim s

/-- Fuel-indexed event loop: repeatedly fire the earliest due event. -/
def advanceFuel : Nat → Sys α → Nat → Sys α
  | 0, s, target => { s with now := target }
  | Nat.succ f, s, target =>
    match earliestDue s target with
    | none => { s with now := target }
    | some t => advanceFuel f (stepAt s t) target

/-- Run the event loop up to time `target`: process every due timer and
animation completion in time order, then set the clock to `target`.  Each
step removes a timer or clears the out-animation, so `2·|timers| + 2` fuel
always suffices. -/
def advance (s : Sys α) (target : Nat) : Sys α :=
  advanceFuel (2 * s.timers.length + 2) s target

/-- The observable calls made by a button press handler: the button's own
`onPress` callback, and the `onClose` callback (wired to `hideAlert` by the
provider). -/
inductive PressEv (α : Type) where
  | action (a : Act α)
  | close
  deriving DecidableEq

/-- The press handler attached to every rendered button in
`AlertProvider.tsx`: `() => { button.onPress(); onClose(); }`, recorded as
the sequence of calls it performs. -/
def pressTrace (b : AlertButton α) : List (PressEv α) :=
  [PressEv.action b.onPress, PressEv.close]

/-- Recognises a callback invocation in a press trace. -/
def isActionEv : PressEv α → Bool
  | PressEv.action _ => true
  | PressEv.close => false

/-- Recognises an `onClose` (hide) invocation in a press trace. -/
def isCloseEv : PressEv α → Bool
  | PressEv.close => true
  | PressEv.action _ => false

/-- The context value installed by `AlertProvider`: its three operations. -/
structure AlertContextType (α : Type) where
  showAlert : Sys α → String → AlertType → Nat → Sys α
  showConfirmAlert : Sys α → String → List (AlertButton α) → AlertType → Sys α
  showDeleteConfirmation : Sys α → String → Act α → Option (Act α) → Sys α

/-- The value `AlertProvider` places into `AlertContext`. -/
def providerValue (α : Type) : AlertContextType α :=
  { showAlert := showAlert
    showConfirmAlert := showConfirmAlert
    showDeleteConfirmation := showDeleteConfirmation }

/-- `useAlert` from `AlertProvider.tsx`: reads the context; with no provider
present the context is `undefined` and the hook throws
`Error('useAlert must be used within an AlertProvider')`; otherwise it
returns the context value. -/
def useAlert (context : Option (AlertContextType α)) :
    Except String (AlertContextType α) :=
  match context with
  | none => Except.error "useAlert must be used within an AlertProvider"
  | some c => Except.ok c

/-- The process-wide bridge of `alert.ts`, together with the controller it
forwards to and a count of `console.warn` emissions.  Each `g…` flag records
whether the corresponding module-level slot (`globalShowAlert`,
`globalShowConfirmAlert`, `globalShowDeleteConfirmation`) holds the
controller function; `false` models both `null` and `undefined`, which the
source treats alike (falsy). -/
structure World (α : Type) where
  sys : Sys α
  gShowAlert : Bool
  gShowConfirmAlert : Bool
  gShowDeleteConfirmation : Bool
  warns : Nat
  deriving DecidableEq

/-- Fresh process: slots `null`, no warnings, controller in its initial
state. -/
def initWorld (α : Type) : World α :=
  { sys := initSys α, gShowAlert := false, gShowConfirmAlert := false,
    gShowDeleteConfirmation := false, warns := 0 }

/-- `setGlobalShowAlert` from `alert.ts`: writes its three parameters into
the three slots.  An argument missing at the call site arrives as
`undefined`, i.e. stores `false`. -/
def setGlobalShowAlert (w : World α) (a b c : Bool) : World α :=
  { w with
    gShowAlert := a
    gShowConfirmAlert := b
    gShowDeleteConfirmation := c }

/-- The mount effect of `AlertInitializer` from `alert-initializer.tsx`:
it calls `setGlobalShowAlert(showAlert)`, supplying only the first of the
three declared parameters, so the `showConfirmAlert` and
`showDeleteConfirmation` slots are written with `undefined`. -/
def AlertInitializer (w : World α) : World α :=
  setGlobalShowAlert w true false false

/-- Free function `showAlert` from `alert.ts`: forward to the registered
slot when present; otherwise warn once and drop the call. -/
def bridgeShowAlert (w : World α) (message : String) (type : AlertType)
    (duration : Nat) : World α :=
  if w.gShowAlert then { w with sys := showAlert w.sys message type duration }
  else { w with warns := w.warns + 1 }

/-- Free function `showConfirmAlert` from `alert.ts`: forward to the
registered slot when present; otherwise warn once and drop the call. -/
def bridgeShowConfirmAlert (w : World α) (message : String)
    (buttons : List (AlertButton α)) (type : AlertType) : World α :=
  if w.gShowConfirmAlert then
    { w with sys := showConfirmAlert w.sys message buttons type }
  else { w with warns := w.warns + 1 }

/-- Free function `showDeleteConfirmation` from `alert.ts`: forward to the
registered slot when present; otherwise build the Cancel/Delete pair itself
and go through the free `showConfirmAlert` with type `'info'` (which in turn
warns when its own slot is empty). -/
def bridgeShowDeleteConfirmation (w : World α) (message : String)
    (onConfirm : Act α) (onCancel : Option (Act α)) : World α :=
  if w.gShowDeleteConfirmation then
    { w with sys := showDeleteConfirmation w.sys message onConfirm onCancel }
  else
    bridgeShowConfirmAlert w message
      [ { text := "Cancel", onPress := onCancel.getD Act.noop,
          type := some BtnKind.cancel },
        { text := "Delete", onPress := onConfirm,
          type := some BtnKind.destructive } ]
      AlertType.info

/-- Composition written from the refinement claim for the delete
confirmation: directly `showConfirmAlert(m, [Cancel(onCancel),
Delete(onConfirm)], 'info')`, with `Cancel` of kind `cancel` acting as
`onCancel` (or a no-op when absent) and `Delete` of kind `destructive`
acting as `onConfirm`. -/
def deleteConfirmationSpec (s : Sys α) (message : String) (onConfirm : Act α)
    (onCancel : Option (Act α)) : Sys α :=
  showConfirmAlert s message
    [ { text := "Cancel", onPress := onCancel.getD Act.noop,
        type := some BtnKind.cancel },
      { text := "Delete", onPress := onConfirm,
        type := some BtnKind.destructive } ]
    AlertType.info

/-- C1: immediately after `showAlert(m, t, d)` the alert state has
`visible = true`, `message = m`, `type = t`, no buttons (`buttons = none`,
the embedding of the source's `buttons: undefined`, i.e. the empty button
set) and `autoHide = true`; omitted arguments default to `type = 'info'`
and `duration = 3000`; the call also schedules exactly one auto-hide timer
`d` ms after the call. -/
theorem showAlert_postcondition (s : Sys α) (m : String) (t : AlertType)
    (d : Nat) :
    ((showAlert s m t d).st.visible = true ∧
     (showAlert s m t d).st.message = m ∧
     (showAlert s m t d).st.type = t ∧
     (showAlert s m t d).st.buttons = none ∧
     (showAlert s m t d).st.autoHide = true) ∧
    showAlertOpt s m none none = showAlert s m AlertType.info 3000 ∧
    (showAlert s m t d).timers = s.timers ++ [s.now + d] :=
  ⟨⟨rfl, rfl, rfl, rfl, rfl⟩, rfl, rfl⟩

/-- C2: immediately after `showConfirmAlert(m, buttons, t)` the alert state
has `visible = true`, `message = m`, `type = t`, exactly the given buttons
in the given order, and `autoHide = false`; the call schedules no timer
(the pending-timer set is unchanged); and from a state with no pending
timer the alert stays visible at every later time, no auto-hide ever
firing, until a button press or an explicit hide intervenes. -/
theorem showConfirmAlert_postcondition (s : Sys α) (m : String)
    (bs : List (AlertButton α)) (t : AlertType) :
    ((showConfirmAlert s m bs t).st.visible = true ∧
     (showConfirmAlert s m bs t).st.message = m ∧
     (showConfirmAlert s m bs t).st.type = t ∧
     (showConfirmAlert s m bs t).st.buttons = some bs ∧
     (showConfirmAlert s m bs t).st.autoHide = false) ∧
    (showConfirmAlert s m bs t).timers = s.timers ∧
    (s.timers = [] →
      ∀ target : Nat,
        (advance (showConfirmAlert s m bs t) target).st.visible = true) := by
  refine ⟨⟨rfl, rfl, rfl, rfl, rfl⟩, rfl, ?_⟩
  intro h target
  simp [advance, showConfirmAlert, h, advanceFuel, earliestDue, listMin]

/-- Witness for C2 at a concrete input: the initial state has no pending
timer, and a confirmation alert shown there is still visible at t = 5000. -/
theorem showConfirmAlert_postcondition_witness :
    (advance (showConfirmAlert (initSys Unit) "Proceed?" [] AlertType.info)
      5000).st.visible = true :=
  (showConfirmAlert_postcondition (initSys Unit) "Proceed?" []
    AlertType.info).2.2 rfl 5000

/-- C3: the press handler of every rendered button performs exactly one
invocation of the button's own callback and exactly one invocation of
`onClose` (wired to `hideAlert` by the provider), and the callback
invocation strictly precedes the close invocation. -/
theorem button_press_dispatch (b : AlertButton α) :
    (pressTrace b).countP isActionEv = 1 ∧
    (pressTrace b).countP isCloseEv = 1 ∧
    ∃ i j : Nat, i < j ∧
      (pressTrace b).get? i = some (PressEv.action b.onPress) ∧
      (pressTrace b).get? j = some PressEv.close :=
  ⟨rfl, rfl, 0, 1, Nat.zero_lt_one, rfl, rfl⟩

/-- C4: `showDeleteConfirmation(m, onConfirm, onCancel)` produces exactly
the state produced by `showConfirmAlert(m, [Cancel, Delete], 'info')`,
where `Cancel` has kind `cancel` and action `onCancel` (a no-op when
absent) and `Delete` has kind `destructive` and action `onConfirm`; in
particular the resulting state carries exactly that button pair in that
order, `autoHide = false`, and the fixed type `'info'`. -/
theorem showDeleteConfirmation_equiv (s : Sys α) (m : String) (c : Act α)
    (oc : Option (Act α)) :
    showDeleteConfirmation s m c oc = deleteConfirmationSpec s m c oc ∧
    (showDeleteConfirmation s m c oc).st.buttons =
      some [ { text := "Cancel", onPress := oc.getD Act.noop,
               type := some BtnKind.cancel },
             { text := "Delete", onPress := c,
               type := some BtnKind.destructive } ] ∧
    (showDeleteConfirmation s m c oc).st.autoHide = false ∧
    (showDeleteConfirmation s m c oc).st.type = AlertType.info :=
  ⟨rfl, rfl, rfl, rfl⟩

/-- C9: completing a hide writes `visible := false` and no other field —
message, type, buttons and autoHide keep the values last written by a
`show*` call; and hide is idempotent: calling it again while already hiding
is the identity, and calling it again after the state is hidden leaves the
final alert state identical. -/
theorem hideAlert_frame_and_idempotent (s : Sys α) :
    ((fireOutAnim (hideAlert s)).st.visible = false ∧
     (fireOutAnim (hideAlert s)).st.message = s.st.message ∧
     (fireOutAnim (hideAlert s)).st.type = s.st.type ∧
     (fireOutAnim (hideAlert s)).st.buttons = s.st.buttons ∧
     (fireOutAnim (hideAlert s)).st.autoHide = s.st.autoHide) ∧
    hideAlert (hideAlert s) = hideAlert s ∧
    (fireOutAnim (hideAlert (fireOutAnim (hideAlert s)))).st =
      (fireOutAnim (hideAlert s)).st :=
  ⟨⟨rfl, rfl, rfl, rfl, rfl⟩, rfl, rfl⟩

/-- C10: `useAlert` outside any provider (context absent) throws the error
`useAlert must be used within an AlertProvider` and touches no alert state;
inside a provider it returns the provider's three operations without
error. -/
theorem useAlert_context_guard (α : Type) :
    useAlert (none : Option (AlertContextType α)) =
      Except.error "useAlert must be used within an AlertProvider" ∧
    (∀ c : AlertContextType α, useAlert (some c) = Except.ok c) ∧
    useAlert (some (providerValue α)) = Except.ok (providerValue α) :=
  ⟨rfl, fun _ => rfl, rfl⟩

/-- Overwriting `visible` with `false` is the identity on an already hidden
alert state. -/
theorem AlertState.visible_false_update {st : AlertState α}
    (h : st.visible = false) :
    ({ st with visible := false } : AlertState α) = st := by
  cases st
  simp_all

/-- C5 (code bug): before any registration each bridge free function leaves
the controller state untouched and emits exactly one warning — including
`showDeleteConfirmation`, whose unregistered fallback warns exactly once,
through the free `showConfirmAlert`.  But after the repository's own
registration step — `AlertInitializer`, which passes only `showAlert` to
the three-parameter `setGlobalShowAlert` — only the free `showAlert`
forwards to the controller; the free `showConfirmAlert` and
`showDeleteConfirmation` still warn and drop the call, while the direct
controller `showConfirmAlert` would have shown the alert.  The claimed
behavioural identity after registration therefore fails for two of the
three functions. -/
theorem bridge_registration_gap :
    ((bridgeShowAlert (initWorld Unit) "m" AlertType.info 3000).sys
        = initSys Unit ∧
     (bridgeShowAlert (initWorld Unit) "m" AlertType.info 3000).warns = 1 ∧
     (bridgeShowConfirmAlert (initWorld Unit) "m" [] AlertType.info).sys
        = initSys Unit ∧
     (bridgeShowConfirmAlert (initWorld Unit) "m" [] AlertType.info).warns
        = 1 ∧
     (bridgeShowDeleteConfirmation (initWorld Unit) "m" Act.noop none).sys
        = initSys Unit ∧
     (bridgeShowDeleteConfirmation (initWorld Unit) "m" Act.noop none).warns
        = 1) ∧
    (bridgeShowAlert (AlertInitializer (initWorld Unit)) "m" AlertType.info
        3000).sys = showAlert (initSys Unit) "m" AlertType.info 3000 ∧
    ((bridgeShowConfirmAlert (AlertInitializer (initWorld Unit)) "m" []
        AlertType.info).sys = initSys Unit ∧
     (bridgeShowConfirmAlert (AlertInitializer (initWorld Unit)) "m" []
        AlertType.info).warns = 1 ∧
     (showConfirmAlert (initSys Unit) "m" [] AlertType.info).st.visible
        = true ∧
     (bridgeShowDeleteConfirmation (AlertInitializer (initWorld Unit)) "m"
        Act.noop none).sys = initSys Unit ∧
     (bridgeShowDeleteConfirmation (AlertInitializer (initWorld Unit)) "m"
        Act.noop none).warns = 1) :=
  ⟨⟨rfl, rfl, rfl, rfl, rfl, rfl⟩, rfl, rfl, rfl, rfl, rfl, rfl⟩

/-- C6 counterexample: after `showAlert("A", 'info', 100)` at t=0 and
`showAlert("B", 'info', 3000)` at t=50, the first alert's timer fires at
t=100 and its out-animation completes at t=400, leaving `visible = false`
while the second alert's auto-hide timer (due at t=3050) is still
pending. -/
theorem hidden_state_with_pending_timer :
    (advance (showAlert (advance (showAlert (initSys Unit) "A"
        AlertType.info 100) 50) "B" AlertType.info 3000) 400).st.visible
      = false ∧
    (advance (showAlert (advance (showAlert (initSys Unit) "A"
        AlertType.info 100) 50) "B" AlertType.info 3000) 400).timers
      = [3050] := by
  decide

/-- C6 amended: the invariant as stated fails — auto-hide timers are never
cancelled and can remain pending after the alert is hidden — but the nearby
property holds: firing any still-pending timer from a hidden state, and
letting the out-animation it starts run to completion, leaves the alert
state exactly as it was (in particular still hidden) and merely removes
that timer from the pending set; a stale timer can never re-show a hidden
alert. -/
theorem stale_timer_harmless_when_hidden (s : Sys α) (t : Nat)
    (ht : t ∈ s.timers) (hv : s.st.visible = false) :
    (fireOutAnim (fireTimer s t)).st = s.st ∧
    (fireOutAnim (fireTimer s t)).timers = s.timers.erase t := by
  have h1 : fireTimer s t =
      { s with
        now := t,
        timers := s.timers.erase t,
        outAnim := some (t + 300) } := by
    simp [fireTimer, ht, hideAlert]
  rw [h1]
  exact ⟨AlertState.visible_false_update hv, rfl⟩

/-- The hidden controller state left by the overlapping-alerts scenario:
alert "B" already hidden while its own timer, due at t=3050, is pending. -/
def hiddenPending : Sys Unit :=
  { st := { visible := false, message := "B", type := AlertType.info,
            buttons := none, autoHide := true },
    now := 400, timers := [3050], outAnim := none }

/-- Witness for the amended C6 at a concrete input: firing the stale timer
3050 on `hiddenPending` keeps the state hidden and unpends the timer. -/
theorem stale_timer_harmless_when_hidden_witness :
    (fireOutAnim (fireTimer hiddenPending 3050)).st = hiddenPending.st ∧
    (fireOutAnim (fireTimer hiddenPending 3050)).timers =
      hiddenPending.timers.erase 3050 :=
  stale_timer_harmless_when_hidden hiddenPending 3050 (by decide) rfl

/-- C7: a `showAlert` call cancels no pending auto-hide timer — every
previously pending timer is still pending after the call; a pending timer,
when it fires, invokes `hideAlert` unconditionally; and concretely an alert
shown at t=50 with duration 3000 is already hidden at t=400, dismissed by
the surviving timer of the alert it replaced, well before its own duration
would elapse at t=3050. -/
theorem showAlert_does_not_cancel_prior_timer (s : Sys α) (m : String)
    (ty : AlertType) (d : Nat) (t : Nat) (ht : t ∈ s.timers) :
    t ∈ (showAlert s m ty d).timers ∧
    fireTimer s t =
      hideAlert { s with now := t, timers := s.timers.erase t } ∧
    ((advance (showAlert (advance (showAlert (initSys Unit) "A"
        AlertType.info 100) 50) "B" AlertType.info 3000) 400).st.visible
      = false ∧ 400 < 50 + 3000) := by
  refine ⟨?_, ?_, by decide, by decide⟩
  · simp [showAlert]
    exact Or.inl ht
  · simp [fireTimer, ht]

/-- The controller state at t=50 with alert "A" showing and its auto-hide
timer pending at t=100. -/
def visiblePending : Sys Unit :=
  { st := { visible := true, message := "A", type := AlertType.info,
            buttons := none, autoHide := true },
    now := 50, timers := [100], outAnim := none }

/-- Witness for C7 at a concrete input: timer 100 pending in
`visiblePending` survives a new `showAlert`. -/
theorem showAlert_does_not_cancel_prior_timer_witness :
    100 ∈ (showAlert visiblePending "B" AlertType.info 3000).timers :=
  (showAlert_does_not_cancel_prior_timer visiblePending "B" AlertType.info
    3000 100 (by decide)).1

/-- C8 counterexample: after `showAlert("Saved", 'success', 100)` from the
hidden initial state, at t=150 the out-animation started by the t=100 timer
has not yet completed (it completes at t=400), so `visible` is still
`true`, not `false` as the claim states. -/
theorem saved_alert_still_visible_at_150 :
    (advance (showAlert (initSys Unit) "Saved" AlertType.success 100)
      150).st.visible = true := by
  decide

/-- C8 amended: at t=50 the state shows `visible = true`,
`message = "Saved"`, `type = 'success'`; at t=150 the alert is still
visible and hiding — the timer fired at t=100 and started the 300 ms
out-animation, pending completion at t=400; at t=400 the state shows
`visible = false`. -/
theorem saved_alert_timeline :
    ((advance (showAlert (initSys Unit) "Saved" AlertType.success 100)
        50).st.visible = true ∧
     (advance (showAlert (initSys Unit) "Saved" AlertType.success 100)
        50).st.message = "Saved" ∧
     (advance (showAlert (initSys Unit) "Saved" AlertType.success 100)
        50).st.type = AlertType.success) ∧
    ((advance (showAlert (initSys Unit) "Saved" AlertType.success 100)
        150).st.visible = true ∧
     (advance (showAlert (initSys Unit) "Saved" AlertType.success 100)
        150).outAnim = some 400) ∧
    (advance (showAlert (initSys Unit) "Saved" AlertType.success 100)
      400).st.visible = false := by
  decide
